import Mathlib

/-!
Verification of the playwright-cucumber test framework glue code.

Shallow embedding of:
* `getTestArtifactConfig` (src/config/artifacts.ts): environment variables
  to artifact capture flags;
* `parseTestResults` (report generation script): cucumber results JSON to
  aggregate pass/fail/pending counts;
* `CustomWorld.cleanup`, `CustomWorld.closeResources`,
  `CustomWorld.takeScreenshot` (src/fixtures/world.ts): artifact
  keep-or-delete policy, resource close ordering, screenshot gating;
* the cucumber `Before` / `After` hooks (step definitions file): world
  creation and destruction per scenario.

The filesystem is modelled as a list of paths present on disk; asynchronous
operations that can reject are modelled by explicit boolean outcome flags
in an environment record, and thrown exceptions by explicit control flow
that mirrors the try/catch structure of the source.
-/

namespace PlaywrightCucumber

/-- Environment variables: a partial map from variable name to value,
`none` meaning the variable is unset (as in `process.env`). -/
def EnvMap : Type := String → Option String

/-- Artifact configuration record, from `TestArtifactConfig` in
src/config/artifacts.ts. -/
structure TestArtifactConfig where
  screenshots : Bool
  videos : Bool
  traces : Bool
  onlyOnFailure : Bool
deriving DecidableEq, Repr

/-- Embedding of `getTestArtifactConfig` (src/config/artifacts.ts, lines
17-49).  The initial record is computed from the per-type variables, then
the `FORCE_*` overrides are applied, then the `NO_ARTIFACTS` disable-all
override, mirroring the statement order of the source. -/
def getTestArtifactConfig (env : EnvMap) : TestArtifactConfig :=
  let config : TestArtifactConfig :=
    { screenshots :=
        (env "SCREENSHOTS" != some "false") && (env "NO_SCREENSHOTS" != some "true")
      videos :=
        (env "VIDEOS" != some "false") && (env "NO_VIDEOS" != some "true")
      traces :=
        (env "TRACES" != some "false") && (env "NO_TRACES" != some "true")
      onlyOnFailure := env "ARTIFACTS_ON_SUCCESS" != some "true" }
  let config :=
    if env "FORCE_SCREENSHOTS" == some "true" then { config with screenshots := true } else config
  let config :=
    if env "FORCE_VIDEOS" == some "true" then { config with videos := true } else config
  let config :=
    if env "FORCE_TRACES" == some "true" then { config with traces := true } else config
  let config :=
    if env "NO_ARTIFACTS" == some "true" then
      { config with screenshots := false, videos := false, traces := false }
    else config
  config

/-! ## Report parsing (`parseTestResults`) -/

/-- A step result object of the cucumber results JSON: its `status` field. -/
structure StepResult where
  status : String
deriving DecidableEq, Repr

/-- A step of the cucumber results JSON; `result` is `none` when the step
object has no `result` field (the source guards with `step.result && ...`). -/
structure Step where
  result : Option StepResult
deriving DecidableEq, Repr

/-- A scenario element of the cucumber results JSON; `steps` is `none`
when the element has no `steps` array (the source guards with
`if (scenario.steps)`). -/
structure Scenario where
  steps : Option (List Step)
deriving DecidableEq, Repr

/-- A feature of the cucumber results JSON; `elements` is `none` when the
feature has no `elements` array (the source guards with
`if (feature.elements)`). -/
structure Feature where
  elements : Option (List Scenario)
deriving DecidableEq, Repr

/-- The aggregate statistics returned by `parseTestResults`. -/
structure Counts where
  total : Nat
  passed : Nat
  failed : Nat
  pending : Nat
deriving DecidableEq, Repr

/-- The predicate `step.result && step.result.status === 'passed'` of the
source. -/
def stepPassed (s : Step) : Bool :=
  match s.result with
  | some r => r.status == "passed"
  | none => false

/-- The predicate `step.result && step.result.status === 'failed'` of the
source. -/
def stepFailed (s : Step) : Bool :=
  match s.result with
  | some r => r.status == "failed"
  | none => false

/-- The body of the inner `forEach` over scenarios in `parseTestResults`:
a scenario with a `steps` array increments `total` and exactly one of
`passed`, `failed`, `pending`. -/
def tallyScenario (c : Counts) (scen : Scenario) : Counts :=
  match scen.steps with
  | none => c
  | some steps =>
    let c := { c with total := c.total + 1 }
    if steps.all stepPassed then
      { c with passed := c.passed + 1 }
    else if steps.any stepFailed then
      { c with failed := c.failed + 1 }
    else
      { c with pending := c.pending + 1 }

/-- The body of the outer `forEach` over features in `parseTestResults`. -/
def tallyFeature (c : Counts) (f : Feature) : Counts :=
  match f.elements with
  | none => c
  | some scens => scens.foldl tallyScenario c

/-- The possible states of the cucumber results JSON file as observed by
`parseTestResults`: absent, unparseable, parseable but not an array, or an
array of features. -/
inductive ReportFile
  | missing
  | malformed
  | notArray
  | results (features : List Feature)
deriving DecidableEq, Repr

/-- Embedding of `parseTestResults` (report generation script).  A missing
file logs a warning and returns zeroed counts; a JSON parse error is caught
and returns zeroed counts; a non-array document leaves the counters at
zero; otherwise the features are tallied. -/
def parseTestResults : ReportFile → Counts
  | .missing => ⟨0, 0, 0, 0⟩
  | .malformed => ⟨0, 0, 0, 0⟩
  | .notArray => ⟨0, 0, 0, 0⟩
  | .results fs => fs.foldl tallyFeature ⟨0, 0, 0, 0⟩

/-- The scenario elements visited by `parseTestResults`: all elements of
all features that have an `elements` array. -/
def allScenarios (fs : List Feature) : List Scenario :=
  (fs.map fun f => f.elements.getD []).flatten

/-- The step lists of the scenarios that `parseTestResults` actually
classifies (those having a `steps` array). -/
def classifiedSteps (fs : List Feature) : List (List Step) :=
  (allScenarios fs).filterMap (fun s => s.steps)

/-! ## World cleanup (`CustomWorld.cleanup` / `closeResources`) -/

/-- Observable actions attempted by `cleanup` and `closeResources`, in the
order they are reached. -/
inductive Ev
  | traceStop
  | videoResolve
  | attachArtifacts
  | closePage
  | closeContext
  | closeBrowser
  | forceCloseBrowser
deriving DecidableEq, Repr

/-- The state of a world entering `cleanup`, together with outcome flags
for each asynchronous operation that can reject.  `tracePath` is the zip
path computed from the scenario name and timestamp; `videoPath` is the
value `page.video()?.path()` resolves to (`none` when there is no video
object). -/
structure CleanupEnv where
  cfg : TestArtifactConfig
  hasContext : Bool
  hasPage : Bool
  pageClosed : Bool
  hasBrowser : Bool
  tracePath : String
  traceStopTimesOut : Bool
  videoPath : Option String
  videoResolveFails : Bool
  attachFails : Bool
  pageCloseFails : Bool
  contextCloseFails : Bool
  browserCloseFails : Bool
  overallTimeout : Bool
  forceCloseFails : Bool
deriving DecidableEq, Repr

/-- Result of running `cleanup`: the filesystem afterwards (a list of the
paths present on disk), the actions attempted in order, and whether an
exception escaped `cleanup` to its caller. -/
structure CleanupOut where
  fs : List String
  events : List Ev
  threw : Bool
deriving DecidableEq, Repr

/-- The keep-or-delete decision of `cleanup`:
`scenarioFailed || !this.artifactConfig.onlyOnFailure` (computed
identically for the trace and for the video in the source). -/
def keepArtifact (e : CleanupEnv) (scenarioFailed : Bool) : Bool :=
  scenarioFailed || !e.cfg.onlyOnFailure

/-- Filesystem after the trace phase of `cleanup` (lines 208-233 of
world.ts), in the case where `tracing.stop` completed within its 3-second
race: the zip is written at `tracePath`, then deleted again unless the
keep decision holds. -/
def afterTracePhase (e : CleanupEnv) (scenarioFailed : Bool) (fs0 : List String) :
    List String :=
  if e.cfg.traces && e.hasContext then
    let fs := fs0 ++ [e.tracePath]
    if keepArtifact e scenarioFailed then fs else fs.erase e.tracePath
  else fs0

/-- Whether the video phase of `cleanup` runs at all:
`this.artifactConfig.videos && this.page && !this.page.isClosed()`. -/
def videoPhaseRuns (e : CleanupEnv) : Bool :=
  e.cfg.videos && e.hasPage && !e.pageClosed

/-- Filesystem after the video phase of `cleanup` (lines 236-259 of
world.ts).  The phase body is wrapped in its own try/catch, so a rejection
while resolving the video path is swallowed; when a path is resolved the
keep decision is applied, deleting the file when it exists and the
decision is to discard. -/
def afterVideoPhase (e : CleanupEnv) (scenarioFailed : Bool) (fs1 : List String) :
    List String :=
  if videoPhaseRuns e then
    if e.videoResolveFails then fs1
    else
      match e.videoPath with
      | some p =>
        if keepArtifact e scenarioFailed then fs1
        else if p ∈ fs1 then fs1.erase p else fs1
      | none => fs1
  else fs1

/-- Events of the trace phase: `tracing.stop` is attempted whenever traces
are enabled and a context exists. -/
def traceEvents (e : CleanupEnv) : List Ev :=
  if e.cfg.traces && e.hasContext then [Ev.traceStop] else []

/-- Events of the video phase: `page.video()?.path()` is awaited whenever
the phase runs. -/
def videoEvents (e : CleanupEnv) : List Ev :=
  if videoPhaseRuns e then [Ev.videoResolve] else []

/-- Events of the attach phase (lines 262-308 of world.ts): only entered
when the scenario failed; its body is wrapped in a try/catch and reads
files without modifying the filesystem. -/
def attachEvents (scenarioFailed : Bool) : List Ev :=
  if scenarioFailed then [Ev.attachArtifacts] else []

/-- Events of `closeResources` (lines 336-372 of world.ts): close the page
first (when open), then the context, then the browser; each close is
wrapped in its own try/catch, so a failing close does not prevent the
following attempts. -/
def closeResourcesEvents (e : CleanupEnv) : List Ev :=
  (if e.hasPage && !e.pageClosed then [Ev.closePage] else []) ++
    (if e.hasContext then [Ev.closeContext] else []) ++
    (if e.hasBrowser then [Ev.closeBrowser] else [])

/-- Events of the catch handler of `cleanup` (lines 320-330 of world.ts):
force-close the browser when one exists; its own failure is caught by a
nested try/catch. -/
def forceCloseEvents (e : CleanupEnv) : List Ev :=
  if e.hasBrowser then [Ev.forceCloseBrowser] else []

/-- Embedding of `CustomWorld.cleanup` (world.ts, lines 199-331).  The
body runs inside a try whose catch logs and force-closes the browser.  Two
awaits inside the body can reject and reach that catch: the
`Promise.race` around `tracing.stop` (3-second timeout) and the
`Promise.race` around `closeResources` (overall cleanup timeout);
everything else that can fail is caught by an inner try/catch.  A
rejection of the trace race jumps directly to the catch handler, skipping
the video, attach and close phases. -/
def runCleanup (e : CleanupEnv) (scenarioFailed : Bool) (fs0 : List String) :
    CleanupOut :=
  if e.cfg.traces && e.hasContext && e.traceStopTimesOut then
    ⟨fs0, [Ev.traceStop] ++ forceCloseEvents e, false⟩
  else
    let fs2 := afterVideoPhase e scenarioFailed (afterTracePhase e scenarioFailed fs0)
    let evs := traceEvents e ++ videoEvents e ++ attachEvents scenarioFailed
    if e.overallTimeout then
      ⟨fs2, evs ++ forceCloseEvents e, false⟩
    else
      ⟨fs2, evs ++ closeResourcesEvents e, false⟩

/-! ## Screenshot capture (`CustomWorld.takeScreenshot`) -/

/-- The part of the world state that `takeScreenshot` reads. -/
structure ShotEnv where
  hasPage : Bool
  screenshots : Bool
deriving DecidableEq, Repr

/-- Result of `takeScreenshot`: the thrown error message or the returned
path, the filesystem afterwards, and the number of page interactions
performed. -/
structure ShotOut where
  ret : Except String String
  fs : List String
  pageInteractions : Nat
deriving Repr

/-- Embedding of `CustomWorld.takeScreenshot` (world.ts, lines 378-402):
throws when the page is not initialized; returns the empty string without
touching the page or the filesystem when screenshots are disabled;
otherwise writes a timestamped png under reports/screenshots and returns
its path. -/
def takeScreenshot (e : ShotEnv) (name : String) (now : Nat) (fs0 : List String) :
    ShotOut :=
  if !e.hasPage then
    ⟨Except.error "Page not initialized. Call init() first.", fs0, 0⟩
  else if !e.screenshots then
    ⟨Except.ok "", fs0, 0⟩
  else
    let path := "reports/screenshots/" ++ name ++ "-" ++ toString now ++ ".png"
    ⟨Except.ok path, fs0 ++ [path], 1⟩

/-! ## Cucumber hooks (`Before` / `After` of the step definitions file) -/

/-- Observable lifecycle actions of the hooks. -/
inductive HookEv
  | init
  | screenshot
  | cleanup
deriving DecidableEq, Repr

/-- The part of the world state the `After` hook depends on, with an
outcome flag for the screenshot write itself. -/
structure HookWorld where
  hasPage : Bool
  screenshots : Bool
  pageShotFails : Bool
deriving DecidableEq, Repr

/-- Whether `takeScreenshot` throws for this world: it throws when the
page is not initialized, and (when screenshots are enabled) when
`page.screenshot` itself rejects. -/
def screenshotThrows (w : HookWorld) : Bool :=
  !w.hasPage || (w.screenshots && w.pageShotFails)

/-- Events performed by `this.takeScreenshot(...)` as called from the
`After` hook, paired with whether it threw. -/
def takeScreenshotHook (w : HookWorld) : List HookEv × Bool :=
  if !w.hasPage then ([], true)
  else if !w.screenshots then ([], false)
  else if w.pageShotFails then ([], true)
  else ([HookEv.screenshot], false)

/-- Embedding of the `Before` hook (step definitions file, lines 19-26):
it sets the scenario name and awaits `this.init()` exactly once. -/
def beforeHook : List HookEv := [HookEv.init]

/-- Embedding of the `After` hook (step definitions file, lines 31-52):
on a failed scenario outside CI it awaits `this.takeScreenshot(...)` with
no surrounding try/catch, then awaits `this.cleanup()`.  Returns the
events performed and whether the hook threw; a throw from
`takeScreenshot` propagates before `cleanup()` is reached. -/
def afterHook (w : HookWorld) (statusFailed : Bool) (ci : Bool) :
    List HookEv × Bool :=
  if statusFailed && !ci then
    let shot := takeScreenshotHook w
    if shot.snd then (shot.fst, true)
    else (shot.fst ++ [HookEv.cleanup], false)
  else ([HookEv.cleanup], false)

/-! ## Theorems about the artifact configuration -/

/-- Environment with the per-type disable `VIDEOS=false` and the matching
force-enable `FORCE_VIDEOS=true` both set, every other variable unset. -/
def envDisableAndForceVideos : EnvMap := fun k =>
  if k = "VIDEOS" then some "false"
  else if k = "FORCE_VIDEOS" then some "true"
  else none

/-- C3 counterexample: with `VIDEOS=false` and `FORCE_VIDEOS=true` both
set (and `NO_ARTIFACTS` unset), the claim says the per-type disable wins
and video capture is disabled; the code applies the `FORCE_*` overrides
after the per-type variables, so the resolved configuration has
`videos = true`. -/
theorem c3_counterexample_force_beats_disable :
    envDisableAndForceVideos "VIDEOS" = some "false" ∧
      envDisableAndForceVideos "FORCE_VIDEOS" = some "true" ∧
      envDisableAndForceVideos "NO_ARTIFACTS" = none ∧
      (getTestArtifactConfig envDisableAndForceVideos).videos = true :=
  ⟨rfl, rfl, rfl, rfl⟩

/-- C3 (amended): the environment-variable precedence of
`getTestArtifactConfig` is, highest wins: global disable-all
(`NO_ARTIFACTS=true`) over per-type force-enable (`FORCE_*=true`) over
per-type disable (`*=false` / `NO_*=true`) over the enabled default; the
success-mode toggle `ARTIFACTS_ON_SUCCESS` independently determines
`onlyOnFailure`.  In particular, when a per-type disable and the matching
force-enable are both set, the force-enable wins and the type is enabled
(unless `NO_ARTIFACTS=true`). -/
theorem c3_artifact_config_precedence (env : EnvMap) :
    ((getTestArtifactConfig env).screenshots = true ↔
        (env "NO_ARTIFACTS" ≠ some "true" ∧
          (env "FORCE_SCREENSHOTS" = some "true" ∨
            (env "SCREENSHOTS" ≠ some "false" ∧ env "NO_SCREENSHOTS" ≠ some "true")))) ∧
      ((getTestArtifactConfig env).videos = true ↔
        (env "NO_ARTIFACTS" ≠ some "true" ∧
          (env "FORCE_VIDEOS" = some "true" ∨
            (env "VIDEOS" ≠ some "false" ∧ env "NO_VIDEOS" ≠ some "true")))) ∧
      ((getTestArtifactConfig env).traces = true ↔
        (env "NO_ARTIFACTS" ≠ some "true" ∧
          (env "FORCE_TRACES" = some "true" ∨
            (env "TRACES" ≠ some "false" ∧ env "NO_TRACES" ≠ some "true")))) ∧
      ((getTestArtifactConfig env).onlyOnFailure = true ↔
        env "ARTIFACTS_ON_SUCCESS" ≠ some "true") := by
  simp only [getTestArtifactConfig]
  split_ifs <;> simp_all

/-- C4: if `NO_ARTIFACTS=true` then all three capture flags of the
resolved configuration are false, whatever the other variables are. -/
theorem c4_no_artifacts_disables_all (env : EnvMap)
    (h : env "NO_ARTIFACTS" = some "true") :
    (getTestArtifactConfig env).screenshots = false ∧
      (getTestArtifactConfig env).videos = false ∧
      (getTestArtifactConfig env).traces = false := by
  simp only [getTestArtifactConfig]
  split_ifs <;> simp_all

/-- Environment assigning the value "true" to every variable: in
particular `NO_ARTIFACTS=true` together with all three `FORCE_*=true`. -/
def envEverythingTrue : EnvMap := fun _ => some "true"

/-- C4 witness: even with all three force-enables set, `NO_ARTIFACTS=true`
disables all three capture flags. -/
theorem c4_no_artifacts_disables_all_witness :
    envEverythingTrue "NO_ARTIFACTS" = some "true" ∧
      envEverythingTrue "FORCE_SCREENSHOTS" = some "true" ∧
      envEverythingTrue "FORCE_VIDEOS" = some "true" ∧
      envEverythingTrue "FORCE_TRACES" = some "true" ∧
      ((getTestArtifactConfig envEverythingTrue).screenshots = false ∧
        (getTestArtifactConfig envEverythingTrue).videos = false ∧
        (getTestArtifactConfig envEverythingTrue).traces = false) :=
  ⟨rfl, rfl, rfl, rfl, c4_no_artifacts_disables_all envEverythingTrue rfl⟩

/-- C5: with `FORCE_VIDEOS=true` and `VIDEOS=false` both set and
`NO_ARTIFACTS` not set to "true", the resolved configuration enables
video capture: the force-enable overrides the per-type disable. -/
theorem c5_force_videos_overrides_disable (env : EnvMap)
    (h1 : env "FORCE_VIDEOS" = some "true")
    (h2 : env "VIDEOS" = some "false")
    (h3 : env "NO_ARTIFACTS" ≠ some "true") :
    (getTestArtifactConfig env).videos = true := by
  simp only [getTestArtifactConfig]
  split_ifs <;> simp_all

/-- Environment for the C5 witness. -/
def envC5 : EnvMap := fun k =>
  if k = "VIDEOS" then some "false"
  else if k = "FORCE_VIDEOS" then some "true"
  else none

/-- C5 witness: the concrete environment `VIDEOS=false FORCE_VIDEOS=true`
resolves to video capture enabled. -/
theorem c5_force_videos_overrides_disable_witness :
    envC5 "FORCE_VIDEOS" = some "true" ∧
      envC5 "VIDEOS" = some "false" ∧
      envC5 "NO_ARTIFACTS" ≠ some "true" ∧
      (getTestArtifactConfig envC5).videos = true :=
  ⟨rfl, rfl, by decide,
    c5_force_videos_overrides_disable envC5 rfl rfl (by decide)⟩

/-! ## Theorems about `parseTestResults` -/

/-- A step with status "failed" does not have status "passed", so a
scenario with a failed step is not all-passed. -/
lemma any_failed_not_all_passed (s : List Step) (h : s.any stepFailed = true) :
    s.all stepPassed = false := by
  rw [List.any_eq_true] at h
  obtain ⟨x, hx, hfx⟩ := h
  refine List.all_eq_false.mpr ⟨x, hx, ?_⟩
  unfold stepFailed at hfx
  unfold stepPassed
  cases hr : x.result with
  | none => simp
  | some r =>
    rw [hr] at hfx
    have hst : r.status = "failed" := by simpa using hfx
    simp [hst]

/-- Unfolding the scenario fold of `parseTestResults`: each counter of the
result is the initial counter plus the number of classified scenarios in
the corresponding bucket. -/
lemma foldl_tallyScenario (l : List Scenario) (c : Counts) :
    l.foldl tallyScenario c =
      ⟨c.total + (l.filterMap (fun s => s.steps)).length,
        c.passed + (l.filterMap (fun s => s.steps)).countP (fun s => s.all stepPassed),
        c.failed +
          (l.filterMap (fun s => s.steps)).countP
            (fun s => !s.all stepPassed && s.any stepFailed),
        c.pending +
          (l.filterMap (fun s => s.steps)).countP
            (fun s => !s.all stepPassed && !s.any stepFailed)⟩ := by
  induction l generalizing c with
  | nil => simp
  | cons hd tl ih =>
    rw [List.foldl_cons, ih]
    cases hsteps : hd.steps with
    | none => simp [tallyScenario, hsteps]
    | some steps =>
      by_cases hall : steps.all stepPassed
      · simp [tallyScenario, hsteps, hall, List.countP_cons, Nat.add_assoc,
          Nat.add_comm 1]
      · by_cases hany : steps.any stepFailed
        · simp [tallyScenario, hsteps, hall, hany, List.countP_cons,
            Nat.add_assoc, Nat.add_comm 1]
        · simp [tallyScenario, hsteps, hall, hany, List.countP_cons,
            Nat.add_assoc, Nat.add_comm 1]

/-- `tallyFeature` is the scenario fold over the feature's elements (an
absent `elements` array contributes nothing). -/
lemma tallyFeature_eq_foldl (c : Counts) (f : Feature) :
    tallyFeature c f = (f.elements.getD []).foldl tallyScenario c := by
  cases h : f.elements <;> simp [tallyFeature, h]

/-- The feature fold of `parseTestResults` is the scenario fold over all
scenarios of all features. -/
lemma foldl_tallyFeature (fs : List Feature) (c : Counts) :
    fs.foldl tallyFeature c = (allScenarios fs).foldl tallyScenario c := by
  induction fs generalizing c with
  | nil => simp [allScenarios]
  | cons hd tl ih =>
    simp [allScenarios, List.foldl_append, tallyFeature_eq_foldl, ih,
      List.flatten]

/-- C2: `parseTestResults` classifies every scenario that has a steps
array: `total` counts them all, `passed` counts exactly those with every
step of status "passed", `failed` counts exactly those with at least one
step of status "failed", `pending` counts the rest; consequently a results
array whose scenarios all consist of passed steps yields
`passed = total` and `failed = 0`, and a scenario with a failed step is
counted under the failed predicate and never under the passed one. -/
theorem c2_parse_results_classification (fs : List Feature) :
    parseTestResults (.results fs) =
        ⟨(classifiedSteps fs).length,
          (classifiedSteps fs).countP (fun s => s.all stepPassed),
          (classifiedSteps fs).countP (fun s => s.any stepFailed),
          (classifiedSteps fs).countP
            (fun s => !s.all stepPassed && !s.any stepFailed)⟩ ∧
      ((∀ s ∈ classifiedSteps fs, s.all stepPassed = true) →
        (parseTestResults (.results fs)).passed = (parseTestResults (.results fs)).total ∧
          (parseTestResults (.results fs)).failed = 0) ∧
      (∀ s ∈ classifiedSteps fs, s.any stepFailed = true → s.all stepPassed = false) := by
  have hmain : parseTestResults (.results fs) =
      ⟨(classifiedSteps fs).length,
        (classifiedSteps fs).countP (fun s => s.all stepPassed),
        (classifiedSteps fs).countP (fun s => s.any stepFailed),
        (classifiedSteps fs).countP
          (fun s => !s.all stepPassed && !s.any stepFailed)⟩ := by
    show fs.foldl tallyFeature ⟨0, 0, 0, 0⟩ = _
    rw [foldl_tallyFeature, foldl_tallyScenario]
    have hcongr :
        (classifiedSteps fs).countP (fun s => !s.all stepPassed && s.any stepFailed) =
          (classifiedSteps fs).countP (fun s => s.any stepFailed) := by
      apply List.countP_congr
      intro s _
      by_cases h : s.any stepFailed
      · simp [h, any_failed_not_all_passed s h]
      · simp [h]
    simp only [classifiedSteps] at hcongr
    simp [classifiedSteps, hcongr]
  refine ⟨hmain, ?_, fun s _ h => any_failed_not_all_passed s h⟩
  intro hall
  rw [hmain]
  constructor
  · exact List.countP_eq_length.mpr hall
  · refine List.countP_eq_zero.mpr ?_
    intro s hs
    have := any_failed_not_all_passed s
    intro hany
    rw [hall s hs] at this
    exact absurd (this hany) (by simp)

/-- A results array with one feature of two scenarios, both consisting
solely of passed steps. -/
def allPassedResults : List Feature :=
  [⟨some [⟨some [⟨some ⟨"passed"⟩⟩, ⟨some ⟨"passed"⟩⟩]⟩, ⟨some [⟨some ⟨"passed"⟩⟩]⟩]⟩]

/-- C2 witness: on the concrete all-passed results array the parsed
counts satisfy `passed = total` and `failed = 0`, and the total is the
number of scenarios. -/
theorem c2_parse_results_classification_witness :
    (parseTestResults (.results allPassedResults)).passed =
        (parseTestResults (.results allPassedResults)).total ∧
      (parseTestResults (.results allPassedResults)).failed = 0 ∧
      (parseTestResults (.results allPassedResults)).total = 2 :=
  ⟨((c2_parse_results_classification allPassedResults).2.1 (by decide)).1,
    ((c2_parse_results_classification allPassedResults).2.1 (by decide)).2,
    by decide⟩

/-- C6: a missing results file, and a results file whose contents fail to
parse as JSON, both yield the zeroed counts instead of an exception. -/
theorem c6_missing_or_malformed_zeroed :
    parseTestResults .missing = ⟨0, 0, 0, 0⟩ ∧
      parseTestResults .malformed = ⟨0, 0, 0, 0⟩ :=
  ⟨rfl, rfl⟩

/-! ## Theorems about `cleanup` -/

/-- C1: for a scenario with trace and video capture enabled whose cleanup
completes normally (the trace stop does not time out and the video path
resolves), the trace file and the video file are on disk after
`cleanup(scenarioFailed)` if and only if the scenario failed or the
keep-on-success setting is active (`onlyOnFailure = false`); otherwise
cleanup deletes them. -/
theorem c1_cleanup_keeps_artifacts_iff (e : CleanupEnv) (scenarioFailed : Bool)
    (fs0 : List String) (p : String)
    (hT : e.cfg.traces = true) (hC : e.hasContext = true)
    (hTO : e.traceStopTimesOut = false)
    (htp : e.tracePath ∉ fs0)
    (hV : e.cfg.videos = true) (hP : e.hasPage = true) (hPC : e.pageClosed = false)
    (hvr : e.videoResolveFails = false) (hvp : e.videoPath = some p)
    (hmem : p ∈ fs0) (hnd : fs0.Nodup) :
    (e.tracePath ∈ (runCleanup e scenarioFailed fs0).fs ↔
        (scenarioFailed = true ∨ e.cfg.onlyOnFailure = false)) ∧
      (p ∈ (runCleanup e scenarioFailed fs0).fs ↔
        (scenarioFailed = true ∨ e.cfg.onlyOnFailure = false)) := by
  have hcond : (e.cfg.traces && e.hasContext && e.traceStopTimesOut) = false := by
    rw [hTO]
    simp
  have hfs : (runCleanup e scenarioFailed fs0).fs =
      afterVideoPhase e scenarioFailed (afterTracePhase e scenarioFailed fs0) := by
    simp only [runCleanup, hcond, Bool.false_eq_true, if_false]
    split <;> rfl
  rw [hfs]
  by_cases hk : keepArtifact e scenarioFailed = true
  · have htr : afterTracePhase e scenarioFailed fs0 = fs0 ++ [e.tracePath] := by
      simp [afterTracePhase, hT, hC, hk]
    have hvid : afterVideoPhase e scenarioFailed (fs0 ++ [e.tracePath]) =
        fs0 ++ [e.tracePath] := by
      simp [afterVideoPhase, videoPhaseRuns, hV, hP, hPC, hvr, hvp, hk]
    have hrhs : scenarioFailed = true ∨ e.cfg.onlyOnFailure = false := by
      rcases Bool.or_eq_true _ _ |>.mp hk with h | h
      · exact Or.inl h
      · exact Or.inr (by simpa using h)
    rw [htr, hvid]
    have hmem' : p ∈ fs0 ++ [e.tracePath] := List.mem_append_left _ hmem
    have htr' : e.tracePath ∈ fs0 ++ [e.tracePath] :=
      List.mem_append_right _ (List.mem_singleton_self _)
    exact ⟨⟨fun _ => hrhs, fun _ => htr'⟩, ⟨fun _ => hrhs, fun _ => hmem'⟩⟩
  · have hk' : keepArtifact e scenarioFailed = false := by
      simpa using hk
    have hrhs : ¬(scenarioFailed = true ∨ e.cfg.onlyOnFailure = false) := by
      rintro (h | h)
      · simp [keepArtifact, h] at hk'
      · simp [keepArtifact, h] at hk'
    have htr : afterTracePhase e scenarioFailed fs0 = fs0 := by
      simp only [afterTracePhase, hT, hC, Bool.and_self, if_true, hk',
        Bool.false_eq_true, if_false]
      rw [List.erase_append_right _ htp, List.erase_cons_head]
      simp
    have hvid : afterVideoPhase e scenarioFailed fs0 = fs0.erase p := by
      simp [afterVideoPhase, videoPhaseRuns, hV, hP, hPC, hvr, hvp, hk', hmem]
    rw [htr, hvid]
    constructor
    · constructor
      · intro h
        exact absurd (List.mem_of_mem_erase h) htp
      · intro h
        exact absurd h hrhs
    · constructor
      · intro h
        have := (hnd.mem_erase_iff.mp h).1
        exact absurd rfl this
      · intro h
        exact absurd h hrhs

/-- Cleanup environment for the C1 witness: all capture enabled,
keep-on-failure policy, a failed scenario. -/
def envC1 : CleanupEnv :=
  { cfg := ⟨true, true, true, true⟩
    hasContext := true
    hasPage := true
    pageClosed := false
    hasBrowser := true
    tracePath := "reports/traces/trace-s-1.zip"
    traceStopTimesOut := false
    videoPath := some "reports/videos/v.webm"
    videoResolveFails := false
    attachFails := false
    pageCloseFails := false
    contextCloseFails := false
    browserCloseFails := false
    overallTimeout := false
    forceCloseFails := false }

/-- C1 witness: for a failed scenario with capture enabled, both the trace
zip and the video file are on disk after cleanup. -/
theorem c1_cleanup_keeps_artifacts_iff_witness :
    "reports/traces/trace-s-1.zip" ∈
        (runCleanup envC1 true ["reports/videos/v.webm"]).fs ∧
      "reports/videos/v.webm" ∈
        (runCleanup envC1 true ["reports/videos/v.webm"]).fs :=
  ⟨(c1_cleanup_keeps_artifacts_iff envC1 true ["reports/videos/v.webm"]
      "reports/videos/v.webm" rfl rfl rfl (by decide) rfl rfl rfl rfl rfl
      (by decide) (by decide)).1.mpr (Or.inl rfl),
    (c1_cleanup_keeps_artifacts_iff envC1 true ["reports/videos/v.webm"]
      "reports/videos/v.webm" rfl rfl rfl (by decide) rfl rfl rfl rfl rfl
      (by decide) (by decide)).2.mpr (Or.inl rfl)⟩

/-- Cleanup environment in which the `tracing.stop` race times out, while
video capture is enabled, a video file is on disk, and the scenario
passed under the only-on-failure policy. -/
def envTraceTimeout : CleanupEnv :=
  { cfg := ⟨true, true, true, true⟩
    hasContext := true
    hasPage := true
    pageClosed := false
    hasBrowser := true
    tracePath := "reports/traces/t.zip"
    traceStopTimesOut := true
    videoPath := some "reports/videos/v.webm"
    videoResolveFails := false
    attachFails := false
    pageCloseFails := false
    contextCloseFails := false
    browserCloseFails := false
    overallTimeout := false
    forceCloseFails := false }

/-- C7 counterexample: when the trace-stop race times out, the claim says
the cleanup sequence still proceeds, resolving the video path, applying
the keep-or-delete decision to the video (here: deleting it, since the
scenario passed and only-on-failure is active) and then closing the
resources.  In the code, the rejected await jumps straight to the outer
catch: the video file is left on disk, the video path is never resolved,
no ordered close is attempted, and the browser is force-closed instead. -/
theorem c7_counterexample_trace_timeout_aborts_sequence :
    (runCleanup envTraceTimeout false ["reports/videos/v.webm"]).fs =
        ["reports/videos/v.webm"] ∧
      (runCleanup envTraceTimeout false ["reports/videos/v.webm"]).events =
        [Ev.traceStop, Ev.forceCloseBrowser] ∧
      Ev.videoResolve ∉
        (runCleanup envTraceTimeout false ["reports/videos/v.webm"]).events ∧
      Ev.closePage ∉
        (runCleanup envTraceTimeout false ["reports/videos/v.webm"]).events := by
  refine ⟨rfl, rfl, ?_, ?_⟩ <;> decide

/-- C7 (amended): a timeout of the bounded 3-second trace-stop window is
swallowed by `cleanup` (no exception reaches the caller), but it aborts
the remainder of the sequence: the filesystem is left untouched, the
video path is not resolved, no keep-or-delete decision is applied, the
ordered close is skipped, and the catch handler force-closes the browser
directly. -/
theorem c7_trace_timeout_swallowed_but_aborts (e : CleanupEnv)
    (scenarioFailed : Bool) (fs0 : List String)
    (hT : e.cfg.traces = true) (hC : e.hasContext = true)
    (hTO : e.traceStopTimesOut = true) :
    (runCleanup e scenarioFailed fs0).threw = false ∧
      (runCleanup e scenarioFailed fs0).fs = fs0 ∧
      (runCleanup e scenarioFailed fs0).events =
        [Ev.traceStop] ++ forceCloseEvents e := by
  unfold runCleanup
  simp [hT, hC, hTO]

/-- C7 witness: instantiating the amended statement at the concrete
timeout environment. -/
theorem c7_trace_timeout_swallowed_but_aborts_witness :
    (runCleanup envTraceTimeout false []).threw = false ∧
      (runCleanup envTraceTimeout false []).fs = [] ∧
      (runCleanup envTraceTimeout false []).events =
        [Ev.traceStop] ++ forceCloseEvents envTraceTimeout :=
  c7_trace_timeout_swallowed_but_aborts envTraceTimeout false [] rfl rfl rfl

/-- C8: `cleanup` never lets an exception escape to its caller; when
neither race rejects, the close sequence attempts page, then context,
then browser, each independently of whether the other closes fail (the
attempted-events list does not depend on any of the close-failure flags);
and when the overall cleanup timeout fires, the browser is force-closed
as the fallback. -/
theorem c8_cleanup_close_sequence (e : CleanupEnv) (scenarioFailed : Bool)
    (fs0 : List String) :
    (runCleanup e scenarioFailed fs0).threw = false ∧
      (e.traceStopTimesOut = false → e.overallTimeout = false →
        (runCleanup e scenarioFailed fs0).events =
          traceEvents e ++ videoEvents e ++ attachEvents scenarioFailed ++
            closeResourcesEvents e) ∧
      (e.traceStopTimesOut = false → e.overallTimeout = true →
        e.hasBrowser = true →
        Ev.forceCloseBrowser ∈ (runCleanup e scenarioFailed fs0).events) := by
  refine ⟨?_, ?_, ?_⟩
  · unfold runCleanup
    split
    · rfl
    · split <;> rfl
  · intro h1 h2
    unfold runCleanup
    simp [h1, h2, List.append_assoc]
  · intro h1 h2 h3
    unfold runCleanup
    simp [h1, h2, h3, forceCloseEvents]

/-- Cleanup environment for the C8 witness: every close fails, neither
race rejects. -/
def envC8 : CleanupEnv :=
  { cfg := ⟨true, true, true, true⟩
    hasContext := true
    hasPage := true
    pageClosed := false
    hasBrowser := true
    tracePath := "reports/traces/t.zip"
    traceStopTimesOut := false
    videoPath := some "reports/videos/v.webm"
    videoResolveFails := false
    attachFails := false
    pageCloseFails := true
    contextCloseFails := true
    browserCloseFails := true
    overallTimeout := false
    forceCloseFails := false }

/-- C8 witness: with all three closes failing, cleanup still attempts
page, context and browser closes in order and no exception escapes. -/
theorem c8_cleanup_close_sequence_witness :
    (runCleanup envC8 false []).threw = false ∧
      (runCleanup envC8 false []).events =
        [Ev.traceStop, Ev.videoResolve, Ev.closePage, Ev.closeContext,
          Ev.closeBrowser] := by
  refine ⟨(c8_cleanup_close_sequence envC8 false []).1, ?_⟩
  rw [(c8_cleanup_close_sequence envC8 false []).2.1 rfl rfl]
  rfl

/-! ## Theorems about `takeScreenshot` and the hooks -/

/-- Paths other than the computed trace path are unaffected by the trace
phase of cleanup. -/
lemma mem_afterTracePhase (ce : CleanupEnv) (failed : Bool) (fs : List String)
    (q : String) (hq : q ≠ ce.tracePath) :
    q ∈ afterTracePhase ce failed fs ↔ q ∈ fs := by
  unfold afterTracePhase
  split
  · split
    · simp [hq]
    · rw [List.mem_erase_of_ne hq]
      simp [hq]
  · exact Iff.rfl

/-- Paths other than the resolved video path are unaffected by the video
phase of cleanup. -/
lemma mem_afterVideoPhase (ce : CleanupEnv) (failed : Bool) (fs : List String)
    (q : String) (hq : ∀ p, ce.videoPath = some p → q ≠ p) :
    q ∈ afterVideoPhase ce failed fs ↔ q ∈ fs := by
  unfold afterVideoPhase
  split
  · split
    · exact Iff.rfl
    · cases hv : ce.videoPath with
      | none => exact Iff.rfl
      | some p =>
        simp only
        split
        · exact Iff.rfl
        · split
          · exact List.mem_erase_of_ne (hq p hv)
          · exact Iff.rfl
  · exact Iff.rfl

/-- C10: for an initialized world whose artifact configuration has
screenshots disabled, `takeScreenshot` returns the empty string, performs
no page interaction and writes no file; and `cleanup` never touches any
path other than the trace zip and the resolved video file, so its
keep-or-delete policy never applies to screenshot files. -/
theorem c10_screenshots_gating (e : ShotEnv) (name : String) (now : Nat)
    (fs0 : List String) (hp : e.hasPage = true) (hs : e.screenshots = false) :
    takeScreenshot e name now fs0 = ⟨Except.ok "", fs0, 0⟩ ∧
      (∀ (ce : CleanupEnv) (failed : Bool) (fs : List String) (q : String),
        q ≠ ce.tracePath → (∀ p, ce.videoPath = some p → q ≠ p) →
        (q ∈ (runCleanup ce failed fs).fs ↔ q ∈ fs)) := by
  constructor
  · simp [takeScreenshot, hp, hs]
  · intro ce failed fs q hq1 hq2
    unfold runCleanup
    split
    · exact Iff.rfl
    · split <;>
        · simp only
          rw [mem_afterVideoPhase ce failed _ q hq2,
            mem_afterTracePhase ce failed fs q hq1]

/-- C10 witness: a world with a page and screenshots disabled returns the
empty string leaving the filesystem alone, and a cleanup run on a failed
scenario preserves a screenshot file on disk. -/
theorem c10_screenshots_gating_witness :
    takeScreenshot ⟨true, false⟩ "failed-login" 7 ["reports/screenshots/a.png"] =
        ⟨Except.ok "", ["reports/screenshots/a.png"], 0⟩ ∧
      ("reports/screenshots/a.png" ∈
          (runCleanup envC1 false ["reports/screenshots/a.png"]).fs ↔
        "reports/screenshots/a.png" ∈ ["reports/screenshots/a.png"]) :=
  ⟨(c10_screenshots_gating ⟨true, false⟩ "failed-login" 7
      ["reports/screenshots/a.png"] rfl rfl).1,
    (c10_screenshots_gating ⟨true, false⟩ "failed-login" 7
      ["reports/screenshots/a.png"] rfl rfl).2 envC1 false
      ["reports/screenshots/a.png"] "reports/screenshots/a.png" (by decide)
      (by intro p hp; cases hp; decide)⟩

/-- Hook world whose scenario failed before a page existed: `init` threw
in the `Before` hook, so `page` was never assigned. -/
def worldNoPage : HookWorld := ⟨false, true, false⟩

/-- C9 counterexample: the claim says the `After` hook always calls world
cleanup on every execution path, including the failure-screenshot path
outside CI.  For a failed scenario outside CI whose world has no page,
`this.takeScreenshot(...)` throws before `this.cleanup()` is reached: the
hook propagates the error and cleanup is never called. -/
theorem c9_counterexample_cleanup_skipped :
    afterHook worldNoPage true false = ([], true) ∧
      HookEv.cleanup ∉ (afterHook worldNoPage true false).fst := by
  refine ⟨rfl, ?_⟩
  decide

/-- C9 (amended): the `Before` hook calls `init` exactly once; the
`After` hook calls cleanup exactly once on every path on which the
optional failure-screenshot capture does not throw (in particular on
every passing scenario, every scenario in CI, and every failing scenario
whose screenshot succeeds or is skipped); but when the screenshot capture
throws — the page is uninitialized, or the screenshot itself fails — the
hook propagates the error and cleanup is not called. -/
theorem c9_world_lifecycle (w : HookWorld) (statusFailed ci : Bool) :
    beforeHook.count HookEv.init = 1 ∧
      (afterHook w statusFailed ci).fst.count HookEv.cleanup =
        (if statusFailed && !ci && screenshotThrows w then 0 else 1) ∧
      (afterHook w statusFailed ci).snd =
        (statusFailed && !ci && screenshotThrows w) := by
  obtain ⟨hp, sc, pf⟩ := w
  cases hp <;> cases sc <;> cases pf <;> cases statusFailed <;> cases ci <;>
    decide

end PlaywrightCucumber
